import Mathlib

/-!
Verification development for the yokedo auth-service credential and session
lifecycle manager (`src/backend/auth-service`).

The Python source is shallowly embedded: database state is passed explicitly,
timestamps are natural numbers (seconds), fallible code returns `Except`, and
every source of randomness (refresh-token bytes, bcrypt salts, fresh row ids)
is supplied as an explicit oracle argument.  Raised Python exceptions —
`fastapi.HTTPException`, `ValueError` from the bcrypt library,
`UnboundLocalError`, and sqlalchemy `MultipleResultsFound` — become
constructors of `ApiError`.
-/

/-- Exceptions observable at the HTTP layer.  `http` is
`fastapi.HTTPException(status_code, detail)` (response headers carry no
semantic content and are not modelled); `unboundLocal` is a Python
`UnboundLocalError` escaping as a 500; `valueError` is a `ValueError` raised
by the bcrypt library; `multipleResultsFound` is sqlalchemy raising from
`scalar_one_or_none` when more than one row matches. -/
inductive ApiError where
  | http (statusCode : Nat) (detail : String)
  | unboundLocal (name : String)
  | valueError (msg : String)
  | multipleResultsFound
deriving DecidableEq, Repr

/-- Equality of `Except` results is decidable componentwise (needed so the
witness theorems can evaluate by `decide`). -/
instance {ε α : Type} [DecidableEq ε] [DecidableEq α] :
    DecidableEq (Except ε α)
  | .error e1, .error e2 =>
    if h : e1 = e2 then .isTrue (by rw [h]) else .isFalse (by simp [h])
  | .error _, .ok _ => .isFalse (by simp)
  | .ok _, .error _ => .isFalse (by simp)
  | .ok a1, .ok a2 =>
    if h : a1 = a2 then .isTrue (by rw [h]) else .isFalse (by simp [h])

/-- Row of the `users` table, from `app/models/user.py` (`class User`).
Ids are modelled as strings (the code compares `str(user.id)` and UUID
columns interchangeably).  The columns `is_deleted` and `deleted_at` are
used throughout `app/routers/auth.py`, `app/core/dependencies.py` and the
alembic migration `caf17025ae92_add_default_false_to_is_deleted.py`, but are
declared in `app/models/base.py`, which is absent from the provided sources;
those two fields are Modelled from the spec: §3 Identity declares
`is_deleted` (bool) and `deleted_at` (nullable timestamp). -/
structure User where
  id : String
  email : String
  first_name : String
  last_name : String
  «alias» : Option String
  password_hash : String
  is_active : Bool
  is_admin : Bool
  language : String
  gender : Option String
  age_range : Option String
  timezone : Option String
  created_at : Nat
  updated_at : Nat
  last_login_at : Option Nat
  is_deleted : Bool
  deleted_at : Option Nat
deriving DecidableEq, Repr

/-- Row of the `user_sessions` table, from `app/models/user_sessions.py`
(`class UserSession`). -/
structure UserSession where
  id : String
  user_id : String
  refresh_token_hash : String
  created_at : Nat
  expires_at : Nat
  user_agent : Option String
  ip_address : Option String
deriving DecidableEq, Repr

/-- The shared PostgreSQL state consumed through `app/database.py`:
the `users` and `user_sessions` tables. -/
structure DB where
  users : List User
  sessions : List UserSession
deriving DecidableEq, Repr

/-- JWT configuration from `app/core/settings.py` (class `Settings`). -/
structure Settings where
  jwt_secret_key : String
  access_token_expire_minutes : Nat
deriving DecidableEq, Repr

/-- sqlalchemy `Result.scalar_one_or_none()`: `none` on no row, the row when
unique, and raises `MultipleResultsFound` when several rows match. -/
def scalarOneOrNone {α : Type} (rows : List α) : Except ApiError (Option α) :=
  match rows with
  | [] => .ok none
  | [x] => .ok (some x)
  | _ => .error .multipleResultsFound

/-- `hashlib.sha256(token.encode("utf-8")).hexdigest()` as used by
`hash_refresh_token` and `validate_refresh_token` in `app/core/refresh.py`.
The compression function itself is outside the embedding; what the program
relies on is that the digest is a deterministic function of the token, and
the spec (§4.3) states that digest collisions are treated as operationally
impossible, so the ideal digest is modelled as an injective tagging of the
input. -/
def sha256_hexdigest (s : String) : String :=
  "sha256:" ++ s

/-- `hash_refresh_token` from `app/core/refresh.py`. -/
def hash_refresh_token (token : String) : String :=
  sha256_hexdigest token

/-- 30 days in seconds: the `timedelta(days=30)` refresh-session lifetime in
`create_refresh_token_session`. -/
def thirtyDays : Nat := 30 * 86400

/-- `create_refresh_token_session` from `app/core/refresh.py`.  The random
output of `generate_refresh_token` (`secrets.token_hex(32)`) is supplied as
`raw_token`, and the fresh UUID primary key of the new row as `sid`.  Returns
the raw token, exactly as the Python function does, together with the updated
database state (the function commits one insert). -/
def create_refresh_token_session (db : DB) (raw_token sid : String) (now : Nat)
    (user_id : String) (user_agent ip_address : Option String) :
    String × DB :=
  let token_hash := hash_refresh_token raw_token
  let expires_at := now + thirtyDays
  let new_session : UserSession :=
    { id := sid
      user_id := user_id
      refresh_token_hash := token_hash
      created_at := now
      expires_at := expires_at
      user_agent := user_agent
      ip_address := ip_address }
  (raw_token, { db with sessions := db.sessions ++ [new_session] })

/-- `validate_refresh_token` from `app/core/refresh.py` (lines 78–132).

The function hashes the presented token and selects the session row whose
`refresh_token_hash` matches (`scalar_one_or_none`).  If no row matches it
raises HTTP 401 "Invalid refresh token".  If a row matches, line 105 then
evaluates `user.is_deleted` — but `user` is a local variable first assigned
only at line 123, so Python raises
`UnboundLocalError: cannot access local variable 'user'` on every matched
session.  Lines 111–132 (the expiry check, the owner lookup, the
active-or-exists check, and the successful return) are unreachable.  The
parameter `now` feeds the expiry comparison of that unreachable code and is
therefore unused. -/
def validate_refresh_token (db : DB) (now : Nat) (refresh_token : String) :
    Except ApiError UserSession :=
  let token_hash := sha256_hexdigest refresh_token
  match scalarOneOrNone
      (db.sessions.filter fun s => s.refresh_token_hash == token_hash) with
  | .error e => .error e
  | .ok none => .error (.http 401 "Invalid refresh token")
  | .ok (some _stored_session) => .error (.unboundLocal "user")

namespace Bcrypt

/-!
Model of the `bcrypt` library as used by `app/core/security.py`
(`bcrypt.gensalt`, `bcrypt.hashpw`, `bcrypt.checkpw`).

Library behaviour reflected here:
* passwords are consumed as UTF-8 bytes and only their first 72 bytes enter
  the algorithm, the remainder is silently ignored (characters model bytes;
  for ASCII input the two coincide);
* a password containing a NUL byte makes `hashpw` and `checkpw` raise
  `ValueError`;
* the produced digest embeds its version, cost and salt, and verification
  re-parses the digest to recover the salt (`checkpw` calls `hashpw` with
  the stored digest as the salt argument); a digest whose prefix does not
  parse as a salt makes the library raise `ValueError("Invalid salt")`;
* the salt is drawn at random by `gensalt`; the draw is an explicit `Nat`
  oracle argument here, and distinct draws give distinct salts.

Deliberate idealizations, stated once: the fixed-width salt and hash fields
of the real `$2b$12$<22 salt chars><31 hash chars>` encoding are separated
by an explicit fourth `$` so that parsing does not depend on field widths,
and the Blowfish-based key derivation is modelled as an ideal collision-free
(injective) function of the truncated password — one-wayness is a
computational property with no counterpart in this embedding, and the spec
(§8) itself treats collisions as negligible.
-/

/-- True when the UTF-8 encoding of `s` contains a NUL byte. -/
def containsNul (s : String) : Bool :=
  s.data.any fun c => c.toNat == 0

/-- The 72-byte truncation `bcrypt` applies to every password. -/
def truncate72 (password : String) : String :=
  String.mk (password.data.take 72)

/-- The salt characters produced by draw `r` of `gensalt`; injective in the
draw. -/
def saltChars (r : Nat) : String :=
  String.mk (List.replicate r 'A')

/-- The ideal collision-free stand-in for the Blowfish key derivation (see
the module comment above). -/
def bcryptKdf (truncated_password : String) : String :=
  truncated_password

/-- Assemble the digest string returned by `hashpw`: version and cost
prefix, salt field, separator, hash field. -/
def formatDigest (salt hash : String) : String :=
  "$2b$12$" ++ salt ++ "$" ++ hash

/-- `bcrypt.gensalt()` (default cost 12) for random draw `r`: the settings
prefix and the salt characters (an empty hash field). -/
def gensalt (r : Nat) : String :=
  formatDigest (saltChars r) ""

/-- Split a salt-or-digest character list into its salt field and the
remainder after the separator; `none` on anything that does not carry the
`$2b$12$` settings prefix and a terminated salt field. -/
def splitFields : List Char → Option (List Char × List Char)
  | '$' :: '2' :: 'b' :: '$' :: '1' :: '2' :: '$' :: rest =>
    match rest.dropWhile (fun c => c != '$') with
    | '$' :: tail => some (rest.takeWhile (fun c => c != '$'), tail)
    | _ => none
  | _ => none

/-- Recover the salt field from a salt-or-digest string; `none` models the
`ValueError("Invalid salt")` cases of the library parser. -/
def parseSalt (s : String) : Option String :=
  (splitFields s.data).map fun p => String.mk p.1

/-- `bcrypt.hashpw(password, salt)`. -/
def hashpw (password salt : String) : Except ApiError String :=
  if containsNul password then
    .error (.valueError "password may not contain NUL bytes")
  else
    match parseSalt salt with
    | none => .error (.valueError "Invalid salt")
    | some s => .ok (formatDigest s (bcryptKdf (truncate72 password)))

/-- `bcrypt.checkpw(password, hashed_password)`: recompute with the salt
parsed from the stored digest and compare in constant time. -/
def checkpw (password hashed_password : String) : Except ApiError Bool :=
  if containsNul password || containsNul hashed_password then
    .error (.valueError "password and hashed_password may not contain NUL bytes")
  else
    match hashpw password hashed_password with
    | .error e => .error e
    | .ok ret => .ok (ret == hashed_password)

end Bcrypt

/-- `hash_password` from `app/core/security.py`; `r` is the random draw
consumed by `bcrypt.gensalt()`. -/
def hash_password (r : Nat) (password : String) : Except ApiError String :=
  Bcrypt.hashpw password (Bcrypt.gensalt r)

/-- `verify_password` from `app/core/security.py`. -/
def verify_password (password hashed_password : String) : Except ApiError Bool :=
  Bcrypt.checkpw password hashed_password

/-- A bearer credential as presented on the wire.  `jwt` is a structurally
well-formed signed token carrying its payload (`sub` claim, expiry) and the
key it was signed with; `malformed` is any string that does not decode as a
JWT at all. -/
inductive Token where
  | jwt (sub : Option String) (exp : Nat) (key : String)
  | malformed (raw : String)
deriving DecidableEq, Repr

/-- Decoded JWT payload. -/
structure JwtPayload where
  sub : Option String
  exp : Nat
deriving DecidableEq, Repr

/-- `create_access_token` from `app/core/jwt.py` with the default
`expires_delta` (minutes from `settings.access_token_expire_minutes`),
called by the routers with `data = \x7b"sub": str(user.id)\x7d`. -/
def create_access_token (settings : Settings) (now : Nat) (sub : String) : Token :=
  .jwt (some sub) (now + 60 * settings.access_token_expire_minutes)
    settings.jwt_secret_key

/-- `decode_access_token` from `app/core/jwt.py`: `jwt.decode` verifies the
signature with the server key and rejects a past `exp`
(`ExpiredSignatureError` when `exp < now`); any structural failure raises a
`DecodeError`.  The pyjwt exceptions are folded into `ApiError.valueError`
carrying the exception name — the one caller catches every exception
uniformly, so the constructor never becomes user-visible. -/
def decode_access_token (settings : Settings) (now : Nat) :
    Token → Except ApiError JwtPayload
  | .malformed _ => .error (.valueError "jwt DecodeError")
  | .jwt sub exp key =>
    if key != settings.jwt_secret_key then
      .error (.valueError "jwt InvalidSignatureError")
    else if exp < now then
      .error (.valueError "jwt ExpiredSignatureError")
    else
      .ok { sub := sub, exp := exp }

/-- `get_current_user` from `app/core/dependencies.py`.  `HTTPBearer`
guarantees a present credential, so the `if not token` guard is not
reachable for a parsed `Token` and is not modelled.  Note that the
`HTTPException("Invalid token: missing subject")` raised inside the `try`
block (line 69) is itself an `Exception`, so `except Exception` (line 75)
catches it and replaces it with the generic 401. -/
def get_current_user (db : DB) (settings : Settings) (now : Nat)
    (token : Token) : Except ApiError User :=
  match decode_access_token settings now token with
  | .error _ => .error (.http 401 "Invalid or expired token")
  | .ok payload =>
    match payload.sub with
    | none => .error (.http 401 "Invalid or expired token")
    | some user_id =>
      match scalarOneOrNone (db.users.filter fun u => u.id == user_id) with
      | .error e => .error e
      | .ok none => .error (.http 401 "User not found")
      | .ok (some user) =>
        if !user.is_active then
          .error (.http 403 "User account is inactive")
        else if user.is_deleted then
          .error (.http 403 "User account has been deleted")
        else
          .ok user

/-- Response body of a successful `POST /login`. -/
structure LoginResponse where
  access_token : Token
  refresh_token : String
deriving DecidableEq, Repr

/-- ASCII lower-casing of one character (the case folding PostgreSQL
applies to the ASCII identifiers used here). -/
def lowerChar (c : Char) : Char :=
  if 65 ≤ c.toNat ∧ c.toNat ≤ 90 then Char.ofNat (c.toNat + 32) else c

/-- ASCII lower-casing of a string. -/
def lowerString (s : String) : String :=
  String.mk (s.data.map lowerChar)

/-- Equality of PostgreSQL `CITEXT` columns (`users.email`, `users.alias`)
is case-insensitive. -/
def citextEq (a b : String) : Bool :=
  lowerString a == lowerString b

/-- `login_user` from `app/routers/auth.py` (lines 82–143).  `raw_token` is
the random refresh secret drawn inside `create_refresh_token_session` and
`sid` the fresh UUID of the new session row.  Returns the response (or the
raised exception) together with the database state after the operation. -/
def login_user (db : DB) (settings : Settings) (now : Nat)
    (raw_token sid : String) (email password : String) :
    Except ApiError LoginResponse × DB :=
  match scalarOneOrNone (db.users.filter fun u => citextEq u.email email) with
  | .error e => (.error e, db)
  | .ok none => (.error (.http 401 "Invalid credentials"), db)
  | .ok (some user) =>
    if user.is_deleted then
      (.error (.http 403 "User account has been deleted"), db)
    else
      match verify_password password user.password_hash with
      | .error e => (.error e, db)
      | .ok false => (.error (.http 401 "Invalid credentials"), db)
      | .ok true =>
        let access_token := create_access_token settings now user.id
        let (refresh_token, db1) :=
          create_refresh_token_session db raw_token sid now user.id none none
        let db2 := { db1 with users := db1.users.map fun u =>
          if u.id == user.id then
            { u with last_login_at := some now, updated_at := now }
          else u }
        (.ok { access_token := access_token, refresh_token := refresh_token },
          db2)

/-- `refresh_access_token` from `app/routers/auth.py` (lines 158–182): no
database write, a new access token for the session owner on success. -/
def refresh_access_token (db : DB) (settings : Settings) (now : Nat)
    (refresh_token : String) : Except ApiError Token :=
  match validate_refresh_token db now refresh_token with
  | .error e => .error e
  | .ok stored_session =>
    .ok (create_access_token settings now stored_session.user_id)

/-- `logout_user` from `app/routers/auth.py` (lines 185–208): validate the
presented secret, then delete the matched session row (by primary key). -/
def logout_user (db : DB) (now : Nat) (refresh_token : String) :
    Except ApiError Unit × DB :=
  match validate_refresh_token db now refresh_token with
  | .error e => (.error e, db)
  | .ok stored_session =>
    (.ok (),
      { db with sessions := db.sessions.filter fun s => s.id != stored_session.id })

/-- `logout_user_from_all_devices` from `app/routers/auth.py`
(lines 211–238). -/
def logout_user_from_all_devices (db : DB) (settings : Settings) (now : Nat)
    (token : Token) : Except ApiError Unit × DB :=
  match get_current_user db settings now token with
  | .error e => (.error e, db)
  | .ok current_user =>
    (.ok (),
      { db with sessions := db.sessions.filter fun s => s.user_id != current_user.id })

/-- One element of the `GET /sessions` response (the serialized fields of
lines 264–273; the refresh-token digest is not among them). -/
structure SessionInfo where
  id : String
  created_at : Nat
  expires_at : Nat
  user_agent : Option String
  ip_address : Option String
deriving DecidableEq, Repr

/-- `list_active_sessions` from `app/routers/auth.py` (lines 241–275). -/
def list_active_sessions (db : DB) (settings : Settings) (now : Nat)
    (token : Token) : Except ApiError (List SessionInfo) × DB :=
  match get_current_user db settings now token with
  | .error e => (.error e, db)
  | .ok current_user =>
    (.ok ((db.sessions.filter fun s => s.user_id == current_user.id).map
        fun s =>
          { id := s.id
            created_at := s.created_at
            expires_at := s.expires_at
            user_agent := s.user_agent
            ip_address := s.ip_address }),
      db)

/-- `delete_session` from `app/routers/auth.py` (lines 278–321). -/
def delete_session (db : DB) (settings : Settings) (now : Nat)
    (token : Token) (session_id : String) : Except ApiError Unit × DB :=
  match get_current_user db settings now token with
  | .error e => (.error e, db)
  | .ok current_user =>
    match scalarOneOrNone (db.sessions.filter fun s => s.id == session_id) with
    | .error e => (.error e, db)
    | .ok none => (.error (.http 404 "Session not found"), db)
    | .ok (some stored_session) =>
      if stored_session.user_id != current_user.id then
        (.error (.http 403 "You are not allowed to delete this session"), db)
      else
        (.ok (),
          { db with sessions := db.sessions.filter fun s => s.id != stored_session.id })

/-- `delete_account` from `app/routers/auth.py` (lines 323–357): mark the
authenticated user soft-deleted with a deletion timestamp and delete every
session row of that user; both writes are committed together by the single
`session.commit()` at line 355, modelled as one state transition. -/
def delete_account (db : DB) (settings : Settings) (now : Nat)
    (token : Token) : Except ApiError Unit × DB :=
  match get_current_user db settings now token with
  | .error e => (.error e, db)
  | .ok user =>
    (.ok (),
      { db with
        users := db.users.map fun u =>
          if u.id == user.id then
            { u with is_deleted := true, deleted_at := some now,
                     updated_at := now }
          else u,
        sessions := db.sessions.filter fun s => s.user_id != user.id })

/-- `get_my_profile` from `app/routers/auth.py` (lines 147–155): the profile
read performs no write and returns the authenticated user (serialized as
`UserPublicSchema`; the serialization is not modelled). -/
def get_my_profile (db : DB) (settings : Settings) (now : Nat)
    (token : Token) : Except ApiError User × DB :=
  match get_current_user db settings now token with
  | .error e => (.error e, db)
  | .ok current_user => (.ok current_user, db)

/-!
## Concrete fixtures

Closed states used by the witness and counterexample theorems.
-/

/-- Server configuration fixture. -/
def settings0 : Settings :=
  { jwt_secret_key := "server-secret", access_token_expire_minutes := 60 }

/-- Digest of the password "longpass1" under salt draw 3. -/
def digest0 : String :=
  Bcrypt.formatDigest (Bcrypt.saltChars 3) (Bcrypt.truncate72 "longpass1")

/-- An active, non-deleted user whose stored digest verifies "longpass1". -/
def user0 : User :=
  { id := "u1", email := "a@x.com", first_name := "Ana", last_name := "Paz",
    «alias» := none, password_hash := digest0, is_active := true,
    is_admin := false, language := "es", gender := none, age_range := none,
    timezone := none, created_at := 0, updated_at := 0, last_login_at := none,
    is_deleted := false, deleted_at := none }

/-- A soft-deleted user. -/
def deletedUser : User :=
  { user0 with
    id := "u2", email := "d@x.com", is_deleted := true,
    deleted_at := some 5 }

/-- An unexpired session of `user0` bound to the refresh secret "tok1". -/
def session0 : UserSession :=
  { id := "s1", user_id := "u1",
    refresh_token_hash := sha256_hexdigest "tok1", created_at := 0,
    expires_at := 100, user_agent := none, ip_address := none }

/-- An expired session owned by the soft-deleted `deletedUser`, bound to the
refresh secret "tok2". -/
def expiredSession : UserSession :=
  { id := "s2", user_id := "u2",
    refresh_token_hash := sha256_hexdigest "tok2", created_at := 0,
    expires_at := 10, user_agent := none, ip_address := none }

/-- Main fixture state: one live user with one live session. -/
def db0 : DB := { users := [user0], sessions := [session0] }

/-- Fixture state for the expired-and-deleted-owner scenario. -/
def db1 : DB := { users := [deletedUser], sessions := [expiredSession] }

/-- An access token for `user0` signed with the fixture server key. -/
def token0 : Token := .jwt (some "u1") 100 "server-secret"

/-- 72 repetitions of the character a. -/
def pw72 : String := String.mk (List.replicate 72 'a')

/-- 73 repetitions of the character a: a distinct password agreeing with
`pw72` on the first 72 bytes. -/
def pw73 : String := String.mk (List.replicate 73 'a')

/-- The digest `hash_password` produces for `pw72` under salt draw 0. -/
def digest72 : String :=
  Bcrypt.formatDigest (Bcrypt.saltChars 0) (Bcrypt.truncate72 pw72)

/-- A password containing a NUL byte. -/
def nulPassword : String := String.mk ['p', 'w', Char.ofNat 0, 'x']

/-- A forged token: correct shape, wrong signing key. -/
def badToken : Token := .jwt (some "u1") 100 "wrong-key"

/-- The digest `hash_password` produces for "otherpass" under salt draw 3. -/
def digestOther : String :=
  Bcrypt.formatDigest (Bcrypt.saltChars 3) (Bcrypt.truncate72 "otherpass")

/-- The digest `hash_password` produces for "longpass1" under salt draw 4. -/
def digest0b : String :=
  Bcrypt.formatDigest (Bcrypt.saltChars 4) (Bcrypt.truncate72 "longpass1")


/-!
## Helper lemmas

List-level facts about the bcrypt digest fields, the ideal digests, and
inversion principles for the embedded operations.  These are shared
infrastructure, not claim theorems.
-/

theorem takeWhile_append_sep {p : Char → Bool} {l r : List Char} {sep : Char}
    (hl : ∀ c ∈ l, p c = true) (hsep : p sep = false) :
    (l ++ sep :: r).takeWhile p = l := by
  induction l with
  | nil => simp [List.takeWhile, hsep]
  | cons a t ih =>
    have ha : p a = true := hl a (List.mem_cons_self a t)
    simp only [List.cons_append, List.takeWhile, ha]
    have := ih fun c hc => hl c (List.mem_cons_of_mem a hc)
    simp [this]

theorem dropWhile_append_sep {p : Char → Bool} {l r : List Char} {sep : Char}
    (hl : ∀ c ∈ l, p c = true) (hsep : p sep = false) :
    (l ++ sep :: r).dropWhile p = sep :: r := by
  induction l with
  | nil => simp [List.dropWhile, hsep]
  | cons a t ih =>
    have ha : p a = true := hl a (List.mem_cons_self a t)
    simp only [List.cons_append, List.dropWhile, ha]
    exact ih fun c hc => hl c (List.mem_cons_of_mem a hc)

namespace Bcrypt

theorem data_formatDigest (salt hash : String) :
    (formatDigest salt hash).data =
      '$' :: '2' :: 'b' :: '$' :: '1' :: '2' :: '$' ::
        (salt.data ++ '$' :: hash.data) := by
  simp [formatDigest, String.data_append]

theorem saltChars_no_sep (r : Nat) :
    ∀ c ∈ (saltChars r).data, (c != '$') = true := by
  intro c hc
  have : c = 'A' := List.eq_of_mem_replicate hc
  simp [this]

theorem splitFields_cons (rest : List Char) :
    splitFields ('$' :: '2' :: 'b' :: '$' :: '1' :: '2' :: '$' :: rest) =
      match rest.dropWhile (fun c => c != '$') with
      | '$' :: tail => some (rest.takeWhile (fun c => c != '$'), tail)
      | _ => none := rfl

theorem splitFields_formatDigest (salt hash : String)
    (hs : ∀ c ∈ salt.data, (c != '$') = true) :
    splitFields (formatDigest salt hash).data = some (salt.data, hash.data) := by
  rw [data_formatDigest, splitFields_cons,
    dropWhile_append_sep hs (by simp), takeWhile_append_sep hs (by simp)]
  rfl

theorem parseSalt_formatDigest (salt hash : String)
    (hs : ∀ c ∈ salt.data, (c != '$') = true) :
    parseSalt (formatDigest salt hash) = some salt := by
  simp [parseSalt, splitFields_formatDigest salt hash hs]

theorem formatDigest_inj {s1 s2 h1 h2 : String}
    (hs1 : ∀ c ∈ s1.data, (c != '$') = true)
    (hs2 : ∀ c ∈ s2.data, (c != '$') = true)
    (heq : formatDigest s1 h1 = formatDigest s2 h2) : s1 = s2 ∧ h1 = h2 := by
  have hsplit : some (s1.data, h1.data) = some (s2.data, h2.data) := by
    rw [← splitFields_formatDigest s1 h1 hs1, ← splitFields_formatDigest s2 h2 hs2, heq]
  have hpair := Option.some.inj hsplit
  exact ⟨String.ext (congrArg Prod.fst hpair), String.ext (congrArg Prod.snd hpair)⟩

theorem saltChars_inj {r1 r2 : Nat} (h : saltChars r1 = saltChars r2) :
    r1 = r2 := by
  have := congrArg (fun s => s.data.length) h
  simpa [saltChars] using this

/-- `truncate72` of a NUL-free string is NUL-free. -/
theorem containsNul_truncate72 {p : String} (h : containsNul p = false) :
    containsNul (truncate72 p) = false := by
  simp only [containsNul, truncate72, List.any_eq_false] at h ⊢
  intro c hc
  exact h c (List.mem_of_mem_take hc)

/-- A digest assembled from a NUL-free salt and NUL-free hash field is
NUL-free. -/
theorem containsNul_formatDigest {salt hash : String}
    (hsalt : containsNul salt = false) (hhash : containsNul hash = false) :
    containsNul (formatDigest salt hash) = false := by
  simp only [containsNul, List.any_eq_false] at hsalt hhash ⊢
  intro c hc
  rw [data_formatDigest] at hc
  simp only [List.mem_cons, List.mem_append] at hc
  rcases hc with h | h | h | h | h | h | h | h
  all_goals first
    | (subst h; decide)
    | (rcases h with h | h
       · exact hsalt c h
       · rcases h with h | h
         · subst h; decide
         · exact hhash c h)

theorem containsNul_saltChars (r : Nat) : containsNul (saltChars r) = false := by
  simp only [containsNul, List.any_eq_false]
  intro c hc
  have : c = 'A' := List.eq_of_mem_replicate hc
  simp [this]

end Bcrypt

namespace Bcrypt

/-- `hashpw` on a library-generated salt: the digest embeds the salt and the
derived hash of the truncated password. -/
theorem hashpw_gensalt (r : Nat) (p : String) (hp : containsNul p = false) :
    hashpw p (gensalt r) = .ok (formatDigest (saltChars r) (truncate72 p)) := by
  simp [hashpw, gensalt, hp, parseSalt_formatDigest _ _ (saltChars_no_sep r),
    bcryptKdf]

/-- A digest produced over a library salt is NUL-free whenever the password
is. -/
theorem containsNul_digest (r : Nat) {p : String}
    (hp : containsNul p = false) :
    containsNul (formatDigest (saltChars r) (truncate72 p)) = false :=
  containsNul_formatDigest (containsNul_saltChars r) (containsNul_truncate72 hp)

/-- `checkpw` against a digest built over a library salt compares the
truncated passwords. -/
theorem checkpw_digest (r : Nat) {p q : String}
    (hp : containsNul p = false) (hq : containsNul q = false) :
    checkpw p (formatDigest (saltChars r) (truncate72 q)) =
      .ok (formatDigest (saltChars r) (truncate72 p) ==
        formatDigest (saltChars r) (truncate72 q)) := by
  have hd : containsNul (formatDigest (saltChars r) (truncate72 q)) = false :=
    containsNul_digest r hq
  simp [checkpw, hp, hd, hashpw,
    parseSalt_formatDigest _ _ (saltChars_no_sep r), bcryptKdf]

end Bcrypt

/-- `hash_password` on a NUL-free password succeeds and returns the digest
over the drawn salt. -/
theorem hash_password_ok (r : Nat) {p : String}
    (hp : Bcrypt.containsNul p = false) :
    hash_password r p =
      .ok (Bcrypt.formatDigest (Bcrypt.saltChars r) (Bcrypt.truncate72 p)) :=
  Bcrypt.hashpw_gensalt r p hp

/-- Verification of the password whose digest is stored succeeds. -/
theorem verify_password_same (r : Nat) {p : String}
    (hp : Bcrypt.containsNul p = false) :
    verify_password p
      (Bcrypt.formatDigest (Bcrypt.saltChars r) (Bcrypt.truncate72 p)) =
      .ok true := by
  rw [verify_password, Bcrypt.checkpw_digest r hp hp]
  simp

/-- Verification against the digest of a password with a different 72-byte
truncation fails (returns `false`). -/
theorem verify_password_other (r : Nat) {p q : String}
    (hp : Bcrypt.containsNul p = false) (hq : Bcrypt.containsNul q = false)
    (hne : Bcrypt.truncate72 p ≠ Bcrypt.truncate72 q) :
    verify_password p
      (Bcrypt.formatDigest (Bcrypt.saltChars r) (Bcrypt.truncate72 q)) =
      .ok false := by
  rw [verify_password, Bcrypt.checkpw_digest r hp hq]
  have : Bcrypt.formatDigest (Bcrypt.saltChars r) (Bcrypt.truncate72 p) ≠
      Bcrypt.formatDigest (Bcrypt.saltChars r) (Bcrypt.truncate72 q) := by
    intro h
    exact hne (Bcrypt.formatDigest_inj (Bcrypt.saltChars_no_sep r)
      (Bcrypt.saltChars_no_sep r) h).2
  simp [this]

/-- No branch of `validate_refresh_token` returns `.ok`: every call raises
(the matched-session branch hits the unbound local, the others raise their
HTTP errors). -/
theorem validate_refresh_token_never_ok (db : DB) (now : Nat) (tok : String)
    (s : UserSession) : validate_refresh_token db now tok ≠ .ok s := by
  intro h
  simp only [validate_refresh_token] at h
  split at h <;> simp_all

/-- A presented secret whose digest matches exactly one stored session makes
`validate_refresh_token` raise the `UnboundLocalError`. -/
theorem validate_refresh_token_of_unique_match (db : DB) (now : Nat)
    (tok : String) (s : UserSession)
    (h : db.sessions.filter
      (fun x => x.refresh_token_hash == sha256_hexdigest tok) = [s]) :
    validate_refresh_token db now tok = .error (.unboundLocal "user") := by
  simp [validate_refresh_token, h, scalarOneOrNone]

/-- A presented secret whose digest matches no stored session makes
`validate_refresh_token` raise HTTP 401 "Invalid refresh token". -/
theorem validate_refresh_token_of_no_match (db : DB) (now : Nat)
    (tok : String)
    (h : db.sessions.filter
      (fun x => x.refresh_token_hash == sha256_hexdigest tok) = []) :
    validate_refresh_token db now tok =
      .error (.http 401 "Invalid refresh token") := by
  simp [validate_refresh_token, h, scalarOneOrNone]

/-- Inversion of a successful `get_current_user`: the presented credential
is a token signed with the server key, unexpired, whose `sub` claim is the
id of the returned user; that user is the unique row with this id, is
active, and is not soft-deleted. -/
theorem get_current_user_ok_inv {db : DB} {st : Settings} {now : Nat}
    {token : Token} {u : User}
    (h : get_current_user db st now token = .ok u) :
    ∃ exp, token = .jwt (some u.id) exp st.jwt_secret_key ∧ ¬ exp < now ∧
      db.users.filter (fun x => x.id == u.id) = [u] ∧
      u.is_active = true ∧ u.is_deleted = false := by
  cases token with
  | malformed raw => simp [get_current_user, decode_access_token] at h
  | jwt sub exp key =>
    by_cases hk : key = st.jwt_secret_key
    · by_cases hexp : exp < now
      · simp [get_current_user, decode_access_token, hk, hexp] at h
      · cases sub with
        | none => simp [get_current_user, decode_access_token, hk, hexp] at h
        | some user_id =>
          simp only [get_current_user, decode_access_token, hk, hexp,
            bne_self_eq_false, Bool.false_eq_true, if_false, if_neg hexp] at h
          rcases hfil : db.users.filter (fun x => x.id == user_id) with _ | ⟨u0, rest⟩
          · simp [scalarOneOrNone, hfil] at h
          · rcases rest with _ | ⟨u1, rest⟩
            · simp only [scalarOneOrNone, hfil] at h
              by_cases hact : u0.is_active
              · by_cases hdel : u0.is_deleted
                · simp [hact, hdel] at h
                · simp only [hact, hdel, Bool.not_true, Bool.false_eq_true,
                    if_false, if_neg] at h
                  have hu : u0 = u := by
                    cases h
                    rfl
                  subst hu
                  have hid : u0.id = user_id := by
                    have hmem : u0 ∈ db.users.filter (fun x => x.id == user_id) := by
                      rw [hfil]; exact List.mem_singleton_self u0
                    have := (List.mem_filter.mp hmem).2
                    exact eq_of_beq this
                  subst hid
                  subst hk
                  exact ⟨exp, rfl, hexp, hfil, hact, Bool.not_eq_true _ ▸ hdel⟩
              · simp [hact] at h
            · simp [scalarOneOrNone, hfil] at h
    · simp [get_current_user, decode_access_token, hk] at h

/-- When no user id occurs twice in the `users` table, every failure of
`get_current_user` is one of the four authentication/authorization
rejections of `app/core/dependencies.py`. -/
theorem get_current_user_error_classified {db : DB} {st : Settings}
    {now : Nat} {token : Token} {e : ApiError}
    (hUnique : ∀ uid, (db.users.filter (fun x => x.id == uid)).length ≤ 1)
    (h : get_current_user db st now token = .error e) :
    e = .http 401 "Invalid or expired token" ∨
    e = .http 401 "User not found" ∨
    e = .http 403 "User account is inactive" ∨
    e = .http 403 "User account has been deleted" := by
  cases token with
  | malformed raw =>
    simp [get_current_user, decode_access_token] at h
    simp [h]
  | jwt sub exp key =>
    by_cases hk : key = st.jwt_secret_key
    · by_cases hexp : exp < now
      · simp [get_current_user, decode_access_token, hk, hexp] at h
        simp [h]
      · cases sub with
        | none =>
          simp [get_current_user, decode_access_token, hk, hexp] at h
          simp [h]
        | some user_id =>
          simp only [get_current_user, decode_access_token, hk, hexp,
            bne_self_eq_false, Bool.false_eq_true, if_false, if_neg hexp] at h
          rcases hfil : db.users.filter (fun x => x.id == user_id) with _ | ⟨u0, rest⟩
          · simp only [scalarOneOrNone, hfil] at h
            cases h
            simp
          · rcases rest with _ | ⟨u1, rest⟩
            · simp only [scalarOneOrNone, hfil] at h
              by_cases hact : u0.is_active
              · by_cases hdel : u0.is_deleted
                · simp only [hact, hdel, Bool.not_true, Bool.false_eq_true,
                    if_false, if_true, if_neg, if_pos] at h
                  cases h
                  simp
                · simp [hact, hdel] at h
              · simp only [hact, Bool.not_false] at h
                cases h
                simp
            · have := hUnique user_id
              rw [hfil] at this
              simp at this
    · simp [get_current_user, decode_access_token, hk] at h
      simp [h]

/-!
## Claims
-/

/-- C1: for every presented refresh secret, `validate_refresh_token`
classifies a secret with no matching session row as `RefreshTokenInvalid`
(HTTP 401 "Invalid refresh token") as the spec states, but a secret whose
digest matches a stored session row makes it raise `UnboundLocalError`
(the read of `user` at refresh.py line 105 precedes the assignment at line
123) instead of performing the claimed identity-state and expiry
classification and instead of ever returning the session. -/
theorem c1_validate_classification_unbound_local (db : DB) (now : Nat)
    (tok : String) :
    (db.sessions.filter
        (fun x => x.refresh_token_hash == sha256_hexdigest tok) = [] →
      validate_refresh_token db now tok =
        .error (.http 401 "Invalid refresh token")) ∧
    (∀ s, db.sessions.filter
        (fun x => x.refresh_token_hash == sha256_hexdigest tok) = [s] →
      validate_refresh_token db now tok = .error (.unboundLocal "user")) :=
  ⟨validate_refresh_token_of_no_match db now tok,
   fun s h => validate_refresh_token_of_unique_match db now tok s h⟩

/-- Witness for C1 at the fixture state: the live secret "tok1" matches
`session0` and validation crashes on the unbound local. -/
theorem c1_validate_classification_unbound_local_witness :
    validate_refresh_token db0 50 "tok1" = .error (.unboundLocal "user") :=
  (c1_validate_classification_unbound_local db0 50 "tok1").2 session0 (by decide)

/-- C2: for a session row that is both expired and owned by a deleted (or
missing) identity, `validate_refresh_token` raises the `UnboundLocalError`
rather than reporting the identity-state failure (`AccountDeleted`) the
claim requires, and also not `RefreshTokenExpired`; `refresh_access_token`
propagates the same exception, so no access token is minted in this
scenario. -/
theorem c2_identity_state_check_crashes (db : DB) (st : Settings) (now : Nat)
    (tok : String) (s : UserSession)
    (hmatch : db.sessions.filter
      (fun x => x.refresh_token_hash == sha256_hexdigest tok) = [s])
    (hexpired : s.expires_at < now)
    (howner : ∀ u ∈ db.users, u.id = s.user_id → u.is_deleted = true) :
    validate_refresh_token db now tok = .error (.unboundLocal "user") ∧
    refresh_access_token db st now tok = .error (.unboundLocal "user") ∧
    ApiError.unboundLocal "user" ≠ .http 403 "User account has been deleted" ∧
    ApiError.unboundLocal "user" ≠ .http 401 "Refresh token expired" := by
  have hv := validate_refresh_token_of_unique_match db now tok s hmatch
  refine ⟨hv, ?_, by simp, by simp⟩
  simp [refresh_access_token, hv]

/-- Witness for C2: in `db1`, the secret "tok2" designates a session that
expired at 10 (now is 50) and belongs to the soft-deleted `deletedUser`. -/
theorem c2_identity_state_check_crashes_witness :
    validate_refresh_token db1 50 "tok2" = .error (.unboundLocal "user") ∧
    refresh_access_token db1 settings0 50 "tok2" =
      .error (.unboundLocal "user") ∧
    ApiError.unboundLocal "user" ≠ .http 403 "User account has been deleted" ∧
    ApiError.unboundLocal "user" ≠ .http 401 "Refresh token expired" :=
  c2_identity_state_check_crashes db1 settings0 50 "tok2" expiredSession
    (by decide) (by decide) (by decide)

/-- C3: the logout endpoint can never delete a session row: on every state
and input its resulting database equals its input database, because
`validate_refresh_token` raises before `session.delete` is reached — on a
unique matching row it propagates the `UnboundLocalError` and the row is
still present afterwards, so deletion-as-revocation is unreachable through
logout. -/
theorem c3_logout_cannot_revoke (db : DB) (now : Nat) (tok : String) :
    (logout_user db now tok).2 = db ∧
    (∀ s, db.sessions.filter
        (fun x => x.refresh_token_hash == sha256_hexdigest tok) = [s] →
      logout_user db now tok = (.error (.unboundLocal "user"), db) ∧
      s ∈ (logout_user db now tok).2.sessions) := by
  have hunch : (logout_user db now tok).2 = db := by
    unfold logout_user
    cases hv : validate_refresh_token db now tok with
    | error e => simp
    | ok s => exact absurd hv (validate_refresh_token_never_ok db now tok s)
  refine ⟨hunch, fun s hs => ?_⟩
  have hv := validate_refresh_token_of_unique_match db now tok s hs
  constructor
  · unfold logout_user
    rw [hv]
  · rw [hunch]
    have : s ∈ db.sessions.filter
        (fun x => x.refresh_token_hash == sha256_hexdigest tok) := by
      rw [hs]; exact List.mem_singleton_self s
    exact List.mem_of_mem_filter this

/-- Witness for C3 at the fixture state: logout of the live secret "tok1"
raises and leaves `session0` in place. -/
theorem c3_logout_cannot_revoke_witness :
    logout_user db0 50 "tok1" = (.error (.unboundLocal "user"), db0) ∧
    session0 ∈ (logout_user db0 50 "tok1").2.sessions :=
  (c3_logout_cannot_revoke db0 50 "tok1").2 session0 (by decide)

/-- C4: in exactly the scenario where the claim asserts repeated validation
succeeds — a uniquely matching, unexpired session row owned by an existing,
active, non-deleted identity — `validate_refresh_token` raises the
`UnboundLocalError` (and, being a pure function of the unchanged state,
does so again on any repetition), and the refresh endpoint propagates the
exception instead of issuing an access token. -/
theorem c4_validate_crashes_on_live_session (db : DB) (st : Settings)
    (now : Nat) (tok : String) (s : UserSession) (u : User)
    (hmatch : db.sessions.filter
      (fun x => x.refresh_token_hash == sha256_hexdigest tok) = [s])
    (hnotexp : ¬ s.expires_at < now)
    (huser : db.users.filter (fun x => x.id == s.user_id) = [u])
    (hact : u.is_active = true) (hdel : u.is_deleted = false) :
    validate_refresh_token db now tok = .error (.unboundLocal "user") ∧
    refresh_access_token db st now tok = .error (.unboundLocal "user") ∧
    ∀ s2, validate_refresh_token db now tok ≠ .ok s2 := by
  have hv := validate_refresh_token_of_unique_match db now tok s hmatch
  exact ⟨hv, by simp [refresh_access_token, hv],
    fun s2 => validate_refresh_token_never_ok db now tok s2⟩

/-- Witness for C4 at the fixture state: "tok1" designates the live
unexpired `session0` owned by the active `user0`, and validation crashes. -/
theorem c4_validate_crashes_on_live_session_witness :
    validate_refresh_token db0 50 "tok1" = .error (.unboundLocal "user") ∧
    refresh_access_token db0 settings0 50 "tok1" =
      .error (.unboundLocal "user") :=
  have h := c4_validate_crashes_on_live_session db0 settings0 50 "tok1"
    session0 user0 (by decide) (by decide) (by decide) (by decide) (by decide)
  ⟨h.1, h.2.1⟩

/-- Counterexample for C5: a login attempt against the registered but
soft-deleted account `deletedUser` with a wrong password fails with HTTP
403 "User account has been deleted", not with the uniform
`InvalidCredentials` (HTTP 401 "Invalid credentials") the claim asserts for
every registered-email-wrong-password attempt. -/
theorem c5_counterexample_deleted_account_leaks :
    (login_user { users := [deletedUser], sessions := [] } settings0 7
        "rtok" "sid9" "d@x.com" "wrongpass9").1 =
      .error (.http 403 "User account has been deleted") ∧
    ApiError.http 403 "User account has been deleted" ≠
      ApiError.http 401 "Invalid credentials" := by
  constructor
  · decide
  · decide

/-- C5 (amended): for every login attempt where the email is not
registered, and every attempt where the email is registered to a
non-soft-deleted account but the password is wrong, login fails with the
same classified error and message (HTTP 401 "Invalid credentials"), so
those two cases are indistinguishable to the caller. -/
theorem c5_amended_uniform_login_failure
    (dbA dbB : DB) (stA stB : Settings) (nowA nowB : Nat)
    (rtA sidA rtB sidB emailA emailB pwA pwB : String) (u : User)
    (hA : dbA.users.filter (fun x => citextEq x.email emailA) = [])
    (hB : dbB.users.filter (fun x => citextEq x.email emailB) = [u])
    (hdel : u.is_deleted = false)
    (hpw : verify_password pwB u.password_hash = .ok false) :
    (login_user dbA stA nowA rtA sidA emailA pwA).1 =
      .error (.http 401 "Invalid credentials") ∧
    (login_user dbB stB nowB rtB sidB emailB pwB).1 =
      .error (.http 401 "Invalid credentials") ∧
    (login_user dbA stA nowA rtA sidA emailA pwA).1 =
      (login_user dbB stB nowB rtB sidB emailB pwB).1 := by
  have h1 : (login_user dbA stA nowA rtA sidA emailA pwA).1 =
      .error (.http 401 "Invalid credentials") := by
    simp [login_user, hA, scalarOneOrNone]
  have h2 : (login_user dbB stB nowB rtB sidB emailB pwB).1 =
      .error (.http 401 "Invalid credentials") := by
    simp [login_user, hB, scalarOneOrNone, hdel, hpw]
  exact ⟨h1, h2, h1.trans h2.symm⟩

/-- Witness for C5 (amended): unknown email "nobody@x.com" and wrong
password "wrongpass1" against `user0` produce the same 401. -/
theorem c5_amended_uniform_login_failure_witness :
    (login_user db0 settings0 7 "rt" "sid" "nobody@x.com" "pw123456").1 =
      .error (.http 401 "Invalid credentials") ∧
    (login_user db0 settings0 7 "rt" "sid" "a@x.com" "wrongpass1").1 =
      .error (.http 401 "Invalid credentials") ∧
    (login_user db0 settings0 7 "rt" "sid" "nobody@x.com" "pw123456").1 =
      (login_user db0 settings0 7 "rt" "sid" "a@x.com" "wrongpass1").1 :=
  c5_amended_uniform_login_failure db0 db0 settings0 settings0 7 7
    "rt" "sid" "rt" "sid" "nobody@x.com" "a@x.com" "pw123456" "wrongpass1"
    user0 (by decide) (by decide) (by decide) (by decide)

/-- C6: every failing login leaves the state unchanged — whatever the
raised error (unknown email, soft-deleted account, wrong password, or a
propagated library or storage error), no session row is created and no
user row (in particular `last_login_at`) is modified. -/
theorem c6_failed_login_no_mutation (db : DB) (st : Settings) (now : Nat)
    (rt sid email pw : String) (e : ApiError)
    (h : (login_user db st now rt sid email pw).1 = .error e) :
    (login_user db st now rt sid email pw).2 = db := by
  simp only [login_user] at h ⊢
  rcases hfil : db.users.filter (fun x => citextEq x.email email) with _ | ⟨u, rest⟩
  · simp [scalarOneOrNone, hfil]
  · rcases rest with _ | ⟨v, rest⟩
    · simp only [scalarOneOrNone, hfil] at h ⊢
      by_cases hdel : u.is_deleted
      · simp [hdel]
      · simp only [hdel, Bool.false_eq_true, if_false, if_neg hdel] at h ⊢
        cases hv : verify_password pw u.password_hash with
        | error e2 => simp [hv]
        | ok b =>
          cases b
          · simp [hv]
          · rw [hv] at h
            simp at h
    · simp [scalarOneOrNone, hfil]

/-- Witness for C6: the wrong-password attempt against `user0` fails and
leaves the fixture state untouched. -/
theorem c6_failed_login_no_mutation_witness :
    (login_user db0 settings0 7 "rt" "sid" "a@x.com" "wrongpass1").2 = db0 :=
  c6_failed_login_no_mutation db0 settings0 7 "rt" "sid" "a@x.com"
    "wrongpass1" (.http 401 "Invalid credentials") (by decide)

/-- C7: for an authenticated caller, `delete_account` succeeds and, in the
single state transition produced by its one `session.commit()`, every user
row carrying the caller's id is marked soft-deleted with the deletion
timestamp, and the session table afterwards is exactly the previous table
with every row of that user removed — so no state ever holds a live session
for the deleted account. -/
theorem c7_delete_account_soft_deletes_and_revokes_all (db : DB)
    (st : Settings) (now : Nat) (token : Token) (u : User)
    (h : get_current_user db st now token = .ok u) :
    (delete_account db st now token).1 = .ok () ∧
    (∀ v ∈ (delete_account db st now token).2.users, v.id = u.id →
      v.is_deleted = true ∧ v.deleted_at = some now) ∧
    (∀ s ∈ (delete_account db st now token).2.sessions, s.user_id ≠ u.id) ∧
    (delete_account db st now token).2.sessions =
      db.sessions.filter (fun s => s.user_id != u.id) := by
  have hred : delete_account db st now token =
      (.ok (), { db with
        users := db.users.map fun v =>
          if v.id == u.id then
            { v with is_deleted := true, deleted_at := some now,
                     updated_at := now }
          else v,
        sessions := db.sessions.filter fun s => s.user_id != u.id }) := by
    unfold delete_account
    rw [h]
  rw [hred]
  refine ⟨rfl, ?_, ?_, rfl⟩
  · intro v hv hvid
    rw [List.mem_map] at hv
    obtain ⟨w, _hw, hfw⟩ := hv
    by_cases hwid : w.id == u.id
    · rw [if_pos hwid] at hfw
      subst hfw
      exact ⟨rfl, rfl⟩
    · rw [if_neg hwid] at hfw
      subst hfw
      rw [hvid] at hwid
      simp at hwid
  · intro s hs
    have := (List.mem_filter.mp hs).2
    simpa using this

/-- Witness for C7: `token0` authenticates `user0` in `db0`; afterwards the
user row is soft-deleted at time 50 and the session table is empty. -/
theorem c7_delete_account_soft_deletes_and_revokes_all_witness :
    (delete_account db0 settings0 50 token0).1 = .ok () ∧
    (delete_account db0 settings0 50 token0).2.sessions =
      db0.sessions.filter (fun s => s.user_id != user0.id) :=
  have h := c7_delete_account_soft_deletes_and_revokes_all db0 settings0 50
    token0 user0 (by decide)
  ⟨h.1, h.2.2.2⟩

/-- Counterexample for C8: the distinct passwords `pw73` and `pw72` (73 and
72 repetitions of a) verify against each other because bcrypt ignores every
byte beyond the 72nd, so verify(P1, hash(P2)) is true for these distinct
P1, P2; and a password containing a NUL byte makes hash raise ValueError
instead of producing a digest at all. -/
theorem c8_counterexample_truncation :
    pw72 ≠ pw73 ∧
    hash_password 0 pw72 = .ok digest72 ∧
    verify_password pw73 digest72 = .ok true ∧
    hash_password 0 nulPassword =
      .error (.valueError "password may not contain NUL bytes") := by
  refine ⟨by decide, by decide, by decide, by decide⟩

/-- C8 (amended): for every NUL-free password P, verify(P, hash(P)) returns
true; for every pair of distinct NUL-free passwords that differ within
their first 72 bytes (bcrypt ignores the rest), verify(P1, hash(P2))
returns false; and hash is non-deterministic in the salt draw — two draws
give different digests for the same password, both of which verify against
it.  Collision-freeness of the key derivation is the ideal-model assumption
stated at the `Bcrypt` module. -/
theorem c8_amended_hash_verify_properties (r r1 r2 : Nat) (p p1 p2 : String) :
    (Bcrypt.containsNul p = false →
      ∃ d, hash_password r p = .ok d ∧ verify_password p d = .ok true) ∧
    (Bcrypt.containsNul p1 = false → Bcrypt.containsNul p2 = false →
      Bcrypt.truncate72 p1 ≠ Bcrypt.truncate72 p2 →
      ∀ d, hash_password r p2 = .ok d → verify_password p1 d = .ok false) ∧
    (r1 ≠ r2 → Bcrypt.containsNul p = false →
      ∀ d1 d2, hash_password r1 p = .ok d1 → hash_password r2 p = .ok d2 →
        d1 ≠ d2 ∧ verify_password p d1 = .ok true ∧
          verify_password p d2 = .ok true) := by
  refine ⟨?_, ?_, ?_⟩
  · intro hp
    exact ⟨_, hash_password_ok r hp, verify_password_same r hp⟩
  · intro h1 h2 hne d hd
    rw [hash_password_ok r h2] at hd
    cases hd
    exact verify_password_other r h1 h2 hne
  · intro hr hp d1 d2 hd1 hd2
    rw [hash_password_ok r1 hp] at hd1
    rw [hash_password_ok r2 hp] at hd2
    cases hd1
    cases hd2
    refine ⟨?_, verify_password_same r1 hp, verify_password_same r2 hp⟩
    intro heq
    exact hr (Bcrypt.saltChars_inj
      ((Bcrypt.formatDigest_inj (Bcrypt.saltChars_no_sep r1)
        (Bcrypt.saltChars_no_sep r2) heq).1))

/-- Witness for C8 (amended) at password "longpass1" and salt draws 3, 4:
the cross-password check returns false, the two draws give distinct
digests, and both digests of "longpass1" verify. -/
theorem c8_amended_hash_verify_properties_witness :
    verify_password "longpass1" digestOther = .ok false ∧
    (digest0 ≠ digest0b ∧ verify_password "longpass1" digest0 = .ok true ∧
      verify_password "longpass1" digest0b = .ok true) :=
  have h := c8_amended_hash_verify_properties 3 3 4 "longpass1" "longpass1"
    "otherpass"
  ⟨h.2.1 (by decide) (by decide) (by decide) digestOther (by decide),
   h.2.2 (by decide) (by decide) digest0 digest0b (by decide) (by decide)⟩

/-- Counterexample for C9: the malformed digest "garbage" makes
`verify_password` raise `ValueError("Invalid salt")` — it is not reported
as the boolean verification failure `false` the claim asserts. -/
theorem c9_counterexample_malformed_digest_raises :
    verify_password "password1" "garbage" =
      .error (.valueError "Invalid salt") ∧
    verify_password "password1" "garbage" ≠ .ok false := by
  refine ⟨by decide, by decide⟩

/-- C9 (amended): for every NUL-free plaintext and candidate digest,
`verify_password` returns a boolean whenever the digest carries a parseable
salt encoding, and raises `ValueError("Invalid salt")` — rather than
returning false or crashing in an uncontrolled way — whenever it does not. -/
theorem c9_amended_verify_total (p d : String)
    (hp : Bcrypt.containsNul p = false)
    (hd : Bcrypt.containsNul d = false) :
    ((Bcrypt.parseSalt d).isSome → ∃ b, verify_password p d = .ok b) ∧
    (Bcrypt.parseSalt d = none →
      verify_password p d = .error (.valueError "Invalid salt")) := by
  constructor
  · intro hsome
    rcases hps : Bcrypt.parseSalt d with _ | s
    · rw [hps] at hsome
      simp at hsome
    · refine ⟨Bcrypt.formatDigest s
        (Bcrypt.bcryptKdf (Bcrypt.truncate72 p)) == d, ?_⟩
      simp [verify_password, Bcrypt.checkpw, Bcrypt.hashpw, hp, hd, hps]
  · intro hnone
    simp [verify_password, Bcrypt.checkpw, Bcrypt.hashpw, hp, hd, hnone]

/-- Witness for C9 (amended): plaintext "password1" against the well-formed
`digest0` yields a boolean result. -/
theorem c9_amended_verify_total_witness :
    ∃ b, verify_password "password1" digest0 = .ok b :=
  (c9_amended_verify_total "password1" digest0 (by decide) (by decide)).1
    (by decide)

/-- C10: under a duplicate-free users table, every protected operation
(logout-all, session listing, per-session delete, account delete, profile
read) runs only behind `get_current_user`: when authentication fails, each
operation returns exactly the authentication/authorization error (one of
the four 401/403 rejections) and leaves the database unchanged; when it
succeeds, the presented credential is a token signed with the server
secret, unexpired, whose `sub` is the id of an existing, active,
non-deleted user. -/
theorem c10_protected_operations_gated (db : DB) (st : Settings) (now : Nat)
    (token : Token) (sid : String)
    (hUnique : ∀ uid, (db.users.filter (fun x => x.id == uid)).length ≤ 1) :
    (∀ e, get_current_user db st now token = .error e →
      logout_user_from_all_devices db st now token = (.error e, db) ∧
      list_active_sessions db st now token = (.error e, db) ∧
      delete_session db st now token sid = (.error e, db) ∧
      delete_account db st now token = (.error e, db) ∧
      get_my_profile db st now token = (.error e, db) ∧
      (e = .http 401 "Invalid or expired token" ∨
       e = .http 401 "User not found" ∨
       e = .http 403 "User account is inactive" ∨
       e = .http 403 "User account has been deleted")) ∧
    (∀ u, get_current_user db st now token = .ok u →
      ∃ exp, token = .jwt (some u.id) exp st.jwt_secret_key ∧ ¬ exp < now ∧
        db.users.filter (fun x => x.id == u.id) = [u] ∧
        u.is_active = true ∧ u.is_deleted = false) := by
  constructor
  · intro e he
    refine ⟨?_, ?_, ?_, ?_, ?_,
      get_current_user_error_classified hUnique he⟩
    · unfold logout_user_from_all_devices
      rw [he]
    · unfold list_active_sessions
      rw [he]
    · unfold delete_session
      rw [he]
    · unfold delete_account
      rw [he]
    · unfold get_my_profile
      rw [he]
  · intro u hu
    exact get_current_user_ok_inv hu

/-- Witness for C10: the forged `badToken` (wrong signing key) is rejected
by every protected operation over the fixture state, with no mutation. -/
theorem c10_protected_operations_gated_witness :
    logout_user_from_all_devices db0 settings0 0 badToken =
      (.error (.http 401 "Invalid or expired token"), db0) ∧
    list_active_sessions db0 settings0 0 badToken =
      (.error (.http 401 "Invalid or expired token"), db0) ∧
    delete_session db0 settings0 0 badToken "s1" =
      (.error (.http 401 "Invalid or expired token"), db0) ∧
    delete_account db0 settings0 0 badToken =
      (.error (.http 401 "Invalid or expired token"), db0) ∧
    get_my_profile db0 settings0 0 badToken =
      (.error (.http 401 "Invalid or expired token"), db0) ∧
    (ApiError.http 401 "Invalid or expired token" =
        .http 401 "Invalid or expired token" ∨
     ApiError.http 401 "Invalid or expired token" = .http 401 "User not found" ∨
     ApiError.http 401 "Invalid or expired token" =
        .http 403 "User account is inactive" ∨
     ApiError.http 401 "Invalid or expired token" =
        .http 403 "User account has been deleted") :=
  (c10_protected_operations_gated db0 settings0 0 badToken "s1"
    (by
      intro uid
      simp only [db0]
      by_cases h : user0.id == uid
      · simp [List.filter, h]
      · simp [List.filter, h])).1
    (.http 401 "Invalid or expired token") (by decide)
